/-
  Verification of testsudoers.c (plugins/sudoers/testsudoers.c) against its
  natural-language specification.

  Shallow embedding: the post-parse pipeline of main(), the gating checks,
  the runas target-identity resolution (set_runaspw / set_runasgr), the
  runas_default observer callback, the per-group trace callback (cb_lookup)
  and the positional-argument handling are translated into Lean functions.
  External collaborators (identity database lookups, sudo_strtoid, the
  shell/chroot/cwd permission predicates) are passed in as oracle
  parameters, matching the interface boundary in the spec.
-/
import Mathlib

namespace Testsudoers

/-- The `validated` bitmask of main(): the flags VALIDATE_SUCCESS,
VALIDATE_FAILURE, VALIDATE_ERROR that sudoers_lookup and the gating
checks set and clear. Absence of all three means "unmatched". -/
structure Validated where
  success : Bool
  failure : Bool
  error : Bool
deriving DecidableEq

/-- Lines printed by the tail of main() (testsudoers.c:365-430).  Each
constructor is one printf/puts statement; the payloads are the format
arguments.  Keeping the lines as a datatype (rather than raw strings)
makes the distinctness of the different messages structural. -/
inductive OutLine
  | parsesOK
  | invalidShell (name shell : String)
  | chrootDenied (user dir : String)
  | cwdDenied (user dir : String)
  | passwordRequired
  | result (msg : String)
deriving DecidableEq

/-- Rendering of each output line, following the C format strings. -/
def OutLine.render : OutLine → String
  | .parsesOK => "Parses OK"
  | .invalidShell name shell => "Invalid shell for user " ++ name ++ ": " ++ shell
  | .chrootDenied user dir =>
      "User " ++ user ++ " is not allowed to change root directory to " ++ dir
  | .cwdDenied user dir =>
      "User " ++ user ++ " is not allowed to change directory to " ++ dir
  | .passwordRequired => "Password required"
  | .result msg => msg

/-- The outcome mapping at testsudoers.c:418-430: from the parse_error
flag and the validated bitmask to the outcome message and exit code,
tested in exactly this order. -/
def outcome (parse_error : Bool) (v : Validated) : String × Nat :=
  if parse_error || v.error then ("Parse error", 1)
  else if v.success then ("Command allowed", 0)
  else if v.failure then ("Command denied", 3)
  else ("Command unmatched", 2)

/-- Context consumed by the gating checks at testsudoers.c:386-406:
the results of the three external permission predicates
(check_user_shell, check_user_runchroot, check_user_runcwd) together
with the strings interpolated into the failure messages. -/
structure GateCtx where
  shellOk : Bool
  chrootOk : Bool
  cwdOk : Bool
  runasName : String
  runasShell : String
  userName : String
  runchroot : String
  runcwd : String
deriving DecidableEq

/-- The gating checks of main() (testsudoers.c:386-406): run only when
VALIDATE_SUCCESS is set; each of the three predicates is tested by its
own if-statement (not chained), prints its own message on failure, and
clears VALIDATE_SUCCESS / sets VALIDATE_FAILURE. Returns the updated
bitmask and the printed lines in order. -/
def gate (c : GateCtx) (v : Validated) : Validated × List OutLine :=
  if v.success then
    let (v1, o1) :=
      if !c.shellOk then
        ({ v with success := false, failure := true },
         [OutLine.invalidShell c.runasName c.runasShell])
      else (v, [])
    let (v2, o2) :=
      if !c.chrootOk then
        ({ v1 with success := false, failure := true },
         [OutLine.chrootDenied c.userName c.runchroot])
      else (v1, [])
    let (v3, o3) :=
      if !c.cwdOk then
        ({ v2 with success := false, failure := true },
         [OutLine.cwdDenied c.userName c.runcwd])
      else (v2, [])
    (v3, o1 ++ o2 ++ o3)
  else (v, [])

/-- Result of the post-parse tail of main(): whether sudoers_lookup was
invoked, whether the gating block was reached, the lines printed
(restricted to the lines modelled by OutLine), and the exit code. -/
structure MainResult where
  ranLookup : Bool
  ranGating : Bool
  lines : List OutLine
  exitcode : Nat
deriving DecidableEq

/-- The tail of main() after the policy parse (testsudoers.c:365-430).
`parse_error` is the flag after parsing and update_defaults; `dflag` is
the -d option; `argcLt2` is whether fewer than two positional arguments
remain at line 371; `lookupResult` is the validated bitmask that
sudoers_lookup returns for the (possibly partial) rule set; `c` carries
the gating predicate results; `auth` is def_authenticate.

Note the early exit at lines 368-375: in dump mode with fewer than two
remaining arguments the program exits right after dumping, with code 1
on parse error and 0 otherwise, without running sudoers_lookup, the
gating checks, or the outcome branch. -/
def mainTail (dflag argcLt2 parse_error : Bool) (lookupResult : Validated)
    (c : GateCtx) (auth : Bool) : MainResult :=
  let parseLines : List OutLine := if parse_error then [] else [OutLine.parsesOK]
  if dflag && argcLt2 then
    { ranLookup := false, ranGating := false, lines := parseLines,
      exitcode := if parse_error then 1 else 0 }
  else
    let (v, gmsgs) := gate c lookupResult
    let pwLines : List OutLine := if auth then [OutLine.passwordRequired] else []
    let (msg, code) := outcome parse_error v
    { ranLookup := true, ranGating := true,
      lines := parseLines ++ gmsgs ++ pwLines ++ [OutLine.result msg],
      exitcode := code }

/-- C1: the outcome mapping of testsudoers.c:418-430.  If parse_error
or VALIDATE_ERROR: "Parse error", exit 1; else if VALIDATE_SUCCESS:
"Command allowed", exit 0; else if VALIDATE_FAILURE: "Command denied",
exit 3; else "Command unmatched", exit 2 — the branches are tested in
exactly this order and exactly one outcome (message, exit code) pair is
produced, always one of the four. -/
theorem C1_outcome_mapping (pe : Bool) (v : Validated) :
    ((pe = true ∨ v.error = true) → outcome pe v = ("Parse error", 1))
    ∧ (pe = false → v.error = false → v.success = true →
        outcome pe v = ("Command allowed", 0))
    ∧ (pe = false → v.error = false → v.success = false → v.failure = true →
        outcome pe v = ("Command denied", 3))
    ∧ (pe = false → v.error = false → v.success = false → v.failure = false →
        outcome pe v = ("Command unmatched", 2))
    ∧ (outcome pe v = ("Parse error", 1) ∨ outcome pe v = ("Command allowed", 0)
        ∨ outcome pe v = ("Command denied", 3)
        ∨ outcome pe v = ("Command unmatched", 2)) := by
  rcases v with ⟨s, f, e⟩
  cases pe <;> cases s <;> cases f <;> cases e <;> simp [outcome]

/-- Witness for C1 at a concrete input: a parse error with an otherwise
empty aggregate maps to ("Parse error", 1). -/
theorem C1_witness : outcome true ⟨false, false, false⟩ = ("Parse error", 1) :=
  (C1_outcome_mapping true ⟨false, false, false⟩).1 (Or.inl rfl)

/-- The gating block never prints the "Password required" notice. -/
theorem gate_no_password (c : GateCtx) (v : Validated) :
    OutLine.passwordRequired ∉ (gate c v).2 := by
  rcases v with ⟨s, f, e⟩
  rcases c with ⟨sh, ch, cw, a, b, u, r, w⟩
  cases s <;> cases sh <;> cases ch <;> cases cw <;> simp [gate]

/-- The last element of a list ending in a singleton. -/
theorem getLast_append_singleton {α : Type} (l : List α) (a : α) :
    (l ++ [a]).getLast? = some a := by
  induction l with
  | nil => rfl
  | cons x xs ih =>
      rcases xs with _ | ⟨y, ys⟩
      · rfl
      · rw [List.cons_append]
        rw [show ((y :: ys) ++ [a] : List α) = y :: (ys ++ [a]) from rfl] at ih ⊢
        exact List.getLast?_cons_cons.trans ih

/-- C3: the gating checks (testsudoers.c:386-406) run only when
VALIDATE_SUCCESS is set; then all three predicates are evaluated
unconditionally (each failing predicate contributes exactly its own
message, independent of the others), each failure clears
VALIDATE_SUCCESS and sets VALIDATE_FAILURE, and a run with both the
shell and the chroot predicate denied reports both denials and maps to
("Command denied", 3). -/
theorem C3_gating_checks (c : GateCtx) (v : Validated) :
    (v.success = false → gate c v = (v, []))
    ∧ (v.success = true →
        (gate c v).2 =
          (if !c.shellOk then [OutLine.invalidShell c.runasName c.runasShell] else [])
          ++ (if !c.chrootOk then [OutLine.chrootDenied c.userName c.runchroot] else [])
          ++ (if !c.cwdOk then [OutLine.cwdDenied c.userName c.runcwd] else []))
    ∧ (v.success = true →
        (gate c v).1.success = (c.shellOk && c.chrootOk && c.cwdOk))
    ∧ (v.success = true →
        (c.shellOk = false ∨ c.chrootOk = false ∨ c.cwdOk = false) →
        (gate c v).1.success = false ∧ (gate c v).1.failure = true)
    ∧ (v.success = true → v.error = false →
        c.shellOk = false → c.chrootOk = false →
        OutLine.invalidShell c.runasName c.runasShell ∈ (gate c v).2
        ∧ OutLine.chrootDenied c.userName c.runchroot ∈ (gate c v).2
        ∧ outcome false (gate c v).1 = ("Command denied", 3)) := by
  rcases v with ⟨s, f, e⟩
  rcases c with ⟨sh, ch, cw, a, b, u, r, w⟩
  cases s <;> cases sh <;> cases ch <;> cases cw <;> cases e <;>
    simp [gate, outcome]

/-- Witness for C3 at a concrete input: success aggregate, denied shell
and denied chroot — both denials reported, outcome ("Command denied", 3). -/
theorem C3_witness :
    OutLine.invalidShell "root" "/bin/false" ∈
      (gate ⟨false, false, true, "root", "/bin/false", "alice", "/jail", "/tmp"⟩
        ⟨true, false, false⟩).2
    ∧ OutLine.chrootDenied "alice" "/jail" ∈
      (gate ⟨false, false, true, "root", "/bin/false", "alice", "/jail", "/tmp"⟩
        ⟨true, false, false⟩).2
    ∧ outcome false
        (gate ⟨false, false, true, "root", "/bin/false", "alice", "/jail", "/tmp"⟩
          ⟨true, false, false⟩).1 = ("Command denied", 3) :=
  (C3_gating_checks ⟨false, false, true, "root", "/bin/false", "alice", "/jail", "/tmp"⟩
    ⟨true, false, false⟩).2.2.2.2 rfl rfl rfl rfl

/-- A sample gating context for concrete evaluations. -/
def ctx0 : GateCtx := ⟨true, true, true, "", "", "", "", ""⟩

/-- Counterexample to C2 as stated: in dump mode (-d) with fewer than
two remaining positional arguments and a parse error, the program exits
right after dumping (testsudoers.c:368-375): sudoers_lookup never runs,
no "Parse error" outcome line is printed (no outcome line at all), even
though the exit code happens to be 1. -/
theorem C2_counterexample :
    (mainTail true true true ⟨true, false, false⟩ ctx0 false).ranLookup = false
    ∧ (mainTail true true true ⟨true, false, false⟩ ctx0 false).lines = []
    ∧ (mainTail true true true ⟨true, false, false⟩ ctx0 false).exitcode = 1 :=
  ⟨rfl, rfl, rfl⟩

/-- C2 (amended): unless dump mode exits early (dump selected with
fewer than two remaining arguments), a parse failure never aborts the
process: sudoers_lookup and the gating block still run against the
partial rule set, and the final outcome is the parse-error branch
("Parse error", exit 1) regardless of the aggregate — including when
the aggregate holds Success or Failure. -/
theorem C2_parse_error_forced (dflag argcLt2 : Bool) (v : Validated)
    (c : GateCtx) (auth : Bool) (h : ¬(dflag = true ∧ argcLt2 = true)) :
    (mainTail dflag argcLt2 true v c auth).ranLookup = true
    ∧ (mainTail dflag argcLt2 true v c auth).ranGating = true
    ∧ (mainTail dflag argcLt2 true v c auth).exitcode = 1
    ∧ (mainTail dflag argcLt2 true v c auth).lines.getLast? =
        some (OutLine.result "Parse error") := by
  have hd : (dflag && argcLt2) = false := by
    cases dflag <;> cases argcLt2 <;> simp_all
  have hout : outcome true (gate c v).1 = ("Parse error", 1) := by
    simp [outcome]
  refine ⟨?_, ?_, ?_, ?_⟩ <;>
    simp [mainTail, hd, hout, getLast_append_singleton]

/-- Witness for C2 (amended) at a concrete input: no dump mode, parse
error, aggregate Success — lookup and gating run, exit 1, outcome line
"Parse error". -/
theorem C2_witness :
    (mainTail false false true ⟨true, false, false⟩ ctx0 false).ranLookup = true
    ∧ (mainTail false false true ⟨true, false, false⟩ ctx0 false).ranGating = true
    ∧ (mainTail false false true ⟨true, false, false⟩ ctx0 false).exitcode = 1
    ∧ (mainTail false false true ⟨true, false, false⟩ ctx0 false).lines.getLast? =
        some (OutLine.result "Parse error") :=
  C2_parse_error_forced false false ⟨true, false, false⟩ ctx0 false (by simp)

/-- C7: when def_authenticate is set (and the run reaches the reporting
tail), the "Password required" notice is printed immediately before the
outcome line; the notice never changes the exit code; and when
def_authenticate is false the notice is never printed. -/
theorem C7_password_notice (dflag argcLt2 pe auth : Bool) (v : Validated)
    (c : GateCtx) :
    (auth = true → ¬(dflag = true ∧ argcLt2 = true) →
      (mainTail dflag argcLt2 pe v c auth).lines =
        (if pe then [] else [OutLine.parsesOK]) ++ (gate c v).2
          ++ [OutLine.passwordRequired,
              OutLine.result (outcome pe (gate c v).1).1])
    ∧ (mainTail dflag argcLt2 pe v c auth).exitcode =
        (mainTail dflag argcLt2 pe v c false).exitcode
    ∧ (auth = false →
        OutLine.passwordRequired ∉ (mainTail dflag argcLt2 pe v c auth).lines) := by
  have hnp := gate_no_password c v
  refine ⟨?_, ?_, ?_⟩
  · intro ha hnd
    have hd : (dflag && argcLt2) = false := by
      cases dflag <;> cases argcLt2 <;> simp_all
    subst ha
    simp [mainTail, hd]
  · cases auth <;> cases dflag <;> cases argcLt2 <;> simp [mainTail]
  · intro ha
    subst ha
    cases dflag <;> cases argcLt2 <;> cases pe <;> simp [mainTail, hnp]

/-- Witness for C7 at a concrete input: authentication required, no
dump exit, successful aggregate — the notice precedes the outcome line
and the exit code matches the non-authenticating run. -/
theorem C7_witness :
    (mainTail false false false ⟨true, false, false⟩ ctx0 true).lines =
      [OutLine.parsesOK] ++ (gate ctx0 ⟨true, false, false⟩).2
        ++ [OutLine.passwordRequired,
            OutLine.result (outcome false (gate ctx0 ⟨true, false, false⟩).1).1]
    ∧ (mainTail false false false ⟨true, false, false⟩ ctx0 true).exitcode =
        (mainTail false false false ⟨true, false, false⟩ ctx0 false).exitcode :=
  ⟨((C7_password_notice false false false true ⟨true, false, false⟩ ctx0).1
      rfl (by simp)),
   (C7_password_notice false false false true ⟨true, false, false⟩ ctx0).2.1⟩

/-- A passwd entry, restricted to the fields the claims mention. -/
structure Passwd where
  name : String
  uid : Nat
  gid : Nat
deriving DecidableEq

/-- A group entry, restricted to the fields the claims mention. -/
structure Group where
  name : String
  gid : Nat
deriving DecidableEq

/-- Modelled from the spec: sudo_fakepwnam (pwutil collaborator, not
under src/) synthesizes a placeholder passwd entry named by the raw
spec string, bearing the parsed numeric id and the caller-supplied
primary group. -/
def sudo_fakepwnam (user : String) (uid : Nat) (gid : Nat) : Passwd :=
  ⟨user, uid, gid⟩

/-- Modelled from the spec: sudo_fakegrnam (pwutil collaborator, not
under src/) synthesizes a placeholder group entry named by the raw
spec string, bearing the parsed numeric id. -/
def sudo_fakegrnam (group : String) (gid : Nat) : Group :=
  ⟨group, gid⟩

/-- set_runaspw (testsudoers.c:439-461).  The collaborators sudo_strtoid,
sudo_getpwuid and sudo_getpwnam are oracle parameters (spec §6);
`user_gid` is user_ctx.gid.  Returns the resolved passwd entry, or
none when the code calls sudo_fatalx (process termination). -/
def set_runaspw (strtoid : String → Option Nat)
    (getpwuid : Nat → Option Passwd) (getpwnam : String → Option Passwd)
    (user_gid : Nat) (user : String) : Option Passwd :=
  let pw0 : Option Passwd :=
    if user.front = '#' then
      match strtoid (user.drop 1) with
      | some uid =>
          match getpwuid uid with
          | some pw => some pw
          | none => some (sudo_fakepwnam user uid user_gid)
      | none => none
    else none
  match pw0 with
  | some pw => some pw
  | none => getpwnam user

/-- set_runasgr (testsudoers.c:463-485), with sudo_strtoid,
sudo_getgrgid and sudo_getgrnam as oracle parameters.  Returns the
resolved group entry, or none when the code calls sudo_fatalx. -/
def set_runasgr (strtoid : String → Option Nat)
    (getgrgid : Nat → Option Group) (getgrnam : String → Option Group)
    (group : String) : Option Group :=
  let gr0 : Option Group :=
    if group.front = '#' then
      match strtoid (group.drop 1) with
      | some gid =>
          match getgrgid gid with
          | some gr => some gr
          | none => some (sudo_fakegrnam group gid)
      | none => none
    else none
  match gr0 with
  | some gr => some gr
  | none => getgrnam group

/-- C5: resolution of a `#id` spec parses the id first and looks it up
by id; a failed id lookup synthesizes a placeholder identity (with the
caller's primary group, for users) instead of terminating; a spec
resolved by name (no leading '#', or an unparsable number after '#')
falls through to the name lookup, whose failure is fatal (the result is
exactly the name lookup's — no synthesis fallback). -/
theorem C5_numeric_id_synthesis (strtoid : String → Option Nat)
    (getpwuid : Nat → Option Passwd) (getpwnam : String → Option Passwd)
    (getgrgid : Nat → Option Group) (getgrnam : String → Option Group)
    (user_gid : Nat) (spec : String) (n : Nat) :
    (spec.front = '#' → strtoid (spec.drop 1) = some n →
      (∀ pw, getpwuid n = some pw →
        set_runaspw strtoid getpwuid getpwnam user_gid spec = some pw)
      ∧ (getpwuid n = none →
          set_runaspw strtoid getpwuid getpwnam user_gid spec =
            some (sudo_fakepwnam spec n user_gid)))
    ∧ (spec.front ≠ '#' →
        set_runaspw strtoid getpwuid getpwnam user_gid spec = getpwnam spec)
    ∧ (spec.front = '#' → strtoid (spec.drop 1) = none →
        set_runaspw strtoid getpwuid getpwnam user_gid spec = getpwnam spec)
    ∧ (spec.front = '#' → strtoid (spec.drop 1) = some n →
      (∀ gr, getgrgid n = some gr →
        set_runasgr strtoid getgrgid getgrnam spec = some gr)
      ∧ (getgrgid n = none →
          set_runasgr strtoid getgrgid getgrnam spec =
            some (sudo_fakegrnam spec n)))
    ∧ (spec.front ≠ '#' →
        set_runasgr strtoid getgrgid getgrnam spec = getgrnam spec)
    ∧ (spec.front = '#' → strtoid (spec.drop 1) = none →
        set_runasgr strtoid getgrgid getgrnam spec = getgrnam spec) := by
  refine ⟨fun h1 h2 => ⟨fun pw h3 => ?_, fun h3 => ?_⟩, fun h1 => ?_,
    fun h1 h2 => ?_, fun h1 h2 => ⟨fun gr h3 => ?_, fun h3 => ?_⟩,
    fun h1 => ?_, fun h1 h2 => ?_⟩ <;>
    simp_all [set_runaspw, set_runasgr]

/-- Sample identity-database oracles for concrete evaluations: uid/gid
999 absent from the database, user "alice" present by name. -/
def demoStrtoid : String → Option Nat :=
  fun s => if s = "999" then some 999 else none

/-- Sample id-based passwd lookup: always misses. -/
def demoPwuid : Nat → Option Passwd := fun _ => none

/-- Sample name-based passwd lookup. -/
def demoPwnam : String → Option Passwd :=
  fun s => if s = "alice" then some ⟨"alice", 7, 7⟩ else none

/-- Sample id-based group lookup: always misses. -/
def demoGrgid : Nat → Option Group := fun _ => none

/-- Sample name-based group lookup. -/
def demoGrnam : String → Option Group :=
  fun s => if s = "wheel" then some ⟨"wheel", 0⟩ else none

/-- Witness for C5 at a concrete input: `#999` with uid 999 absent from
the database resolves to the synthesized placeholder ⟨"#999", 999, 42⟩
rather than terminating. -/
theorem C5_witness :
    set_runaspw demoStrtoid demoPwuid demoPwnam 42 "#999" =
      some (sudo_fakepwnam "#999" 999 42) :=
  ((C5_numeric_id_synthesis demoStrtoid demoPwuid demoPwnam demoGrgid
      demoGrnam 42 "#999" 999).1 rfl rfl).2 rfl

/-- Selection of the target-user spec passed to set_runaspw at
testsudoers.c:335-344: with a runas group present, the runas user, else
the invoking user's name; with no runas group, the runas user, else the
runas_default policy setting. -/
def runasUserSpec (runas_user runas_group : Option String)
    (userName defRunas : String) : String :=
  if runas_group.isSome then runas_user.getD userName
  else runas_user.getD defRunas

/-- C4: target-user fallback asymmetry (testsudoers.c:335-344): -g
without -u resolves the target-user spec to the requesting identity's
own name; neither -g nor -u resolves it to the policy's runas_default;
an explicit -u is always used. -/
theorem C4_fallback_asymmetry (ru rg : Option String)
    (userName defRunas g u : String) :
    (rg = some g → ru = none →
      runasUserSpec ru rg userName defRunas = userName)
    ∧ (rg = none → ru = none →
      runasUserSpec ru rg userName defRunas = defRunas)
    ∧ (ru = some u → runasUserSpec ru rg userName defRunas = u) := by
  refine ⟨fun h1 h2 => ?_, fun h1 h2 => ?_, fun h1 => ?_⟩ <;>
    cases rg <;> simp_all [runasUserSpec]

/-- Witness for C4 at a concrete input: only a target group requested —
the target-user spec is the requesting user's name, not runas_default. -/
theorem C4_witness :
    runasUserSpec none (some "wheel") "alice" "root" = "alice" :=
  (C4_fallback_asymmetry none (some "wheel") "alice" "root" "wheel" "").1
    rfl rfl

/-- State of the reference-counted runas passwd slot: the identity
installed in user_ctx.runas_pw, the multiset of live references the
resolver owns (as a list of identity ids), and whether a reference was
ever released without being held (a double free). -/
structure RcState where
  held : Option Nat
  refs : List Nat
  doubleFree : Bool
deriving DecidableEq

/-- sudo_pw_delref viewed through the reference discipline: releases
one live reference to `p`, or records a double free if none is held. -/
def pwRelease (s : RcState) (p : Nat) : RcState :=
  if p ∈ s.refs then { s with refs := s.refs.erase p }
  else { s with doubleFree := true }

/-- One successful set_runaspw call viewed through reference counting
(testsudoers.c:453-460): the lookup returns a referenced entry
(acquire), then the previously held entry, if any, is released exactly
once (sudo_pw_delref), and the new entry is installed. -/
def setRunasInstall (s : RcState) (newId : Nat) : RcState :=
  let s1 : RcState := { s with refs := newId :: s.refs }
  let s2 : RcState :=
    match s1.held with
    | some old => pwRelease s1 old
    | none => s1
  { s2 with held := some newId }

/-- Initial state: no runas identity held, no live references. -/
def rcInit : RcState := ⟨none, [], false⟩

/-- One resolution step preserves the reference invariant: no double
free, and the live references are exactly the held identity. -/
theorem setRunasInstall_inv (s : RcState) (p : Nat)
    (h1 : s.doubleFree = false) (h2 : s.refs = s.held.toList) :
    (setRunasInstall s p).doubleFree = false
    ∧ (setRunasInstall s p).refs = [p]
    ∧ (setRunasInstall s p).held = some p := by
  rcases s with ⟨held, refs, df⟩
  rcases held with _ | old
  · simp_all [setRunasInstall]
  · simp only [Option.toList] at h2
    subst h2 h1
    by_cases hpo : old = p
    · subst hpo
      simp [setRunasInstall, pwRelease, List.erase_cons]
    · have hne : ¬ (p = old) := fun h => hpo h.symm
      simp [setRunasInstall, pwRelease, List.erase_cons,
        show (old == p) = false by simpa using hpo, hpo, hne]

/-- Folding resolution steps from an invariant state keeps the
invariant and installs the last resolved identity. -/
theorem foldl_setRunas_inv (ids : List Nat) (s : RcState)
    (h1 : s.doubleFree = false) (h2 : s.refs = s.held.toList) :
    (List.foldl setRunasInstall s ids).doubleFree = false
    ∧ (List.foldl setRunasInstall s ids).refs =
        (List.foldl setRunasInstall s ids).held.toList
    ∧ (ids ≠ [] → (List.foldl setRunasInstall s ids).held = ids.getLast?) := by
  induction ids generalizing s with
  | nil => exact ⟨h1, h2, fun h => absurd rfl h⟩
  | cons a rest ih =>
      obtain ⟨k1, k2, k3⟩ := setRunasInstall_inv s a h1 h2
      obtain ⟨m1, m2, m3⟩ := ih (setRunasInstall s a) k1 (by rw [k2, k3]; rfl)
      refine ⟨m1, m2, fun _ => ?_⟩
      rcases rest with _ | ⟨b, bs⟩
      · simpa [List.foldl] using k3
      · rw [List.foldl_cons, m3 (by simp)]
        exact (List.getLast?_cons_cons).symm

/-- C6: reference safety of target-identity re-resolution
(testsudoers.c:453-460, 477-484): after any sequence of successful
resolver calls starting from the initial state, no reference was ever
released twice, the live references the resolver owns are exactly the
single held identity (never two simultaneously), and the held identity
is the last one resolved. -/
theorem C6_reference_safety (ids : List Nat) :
    (List.foldl setRunasInstall rcInit ids).doubleFree = false
    ∧ (List.foldl setRunasInstall rcInit ids).refs =
        (List.foldl setRunasInstall rcInit ids).held.toList
    ∧ (List.foldl setRunasInstall rcInit ids).refs.length ≤ 1
    ∧ (ids ≠ [] → (List.foldl setRunasInstall rcInit ids).held = ids.getLast?) := by
  obtain ⟨h1, h2, h3⟩ := foldl_setRunas_inv ids rcInit rfl rfl
  refine ⟨h1, h2, ?_, h3⟩
  rw [h2]
  cases (List.foldl setRunasInstall rcInit ids).held <;> simp [Option.toList]

/-- Witness for C6 at a concrete input: resolving identity 5 then 9
leaves exactly one live reference, to 9, with no double free. -/
theorem C6_witness :
    (List.foldl setRunasInstall rcInit [5, 9]).doubleFree = false
    ∧ (List.foldl setRunasInstall rcInit [5, 9]).held = some 9 :=
  ⟨(C6_reference_safety [5, 9]).1,
   (C6_reference_safety [5, 9]).2.2.2 (by simp)⟩

/-- cb_runas_default (testsudoers.c:504-512): the observer fired when
the policy's runas_default setting is parsed during evaluation.
Returns the new target-user spec to re-resolve via set_runaspw, or
none when the held target identity is left unchanged. -/
def cb_runas_default (runas_user runas_group : Option String)
    (sd_str : String) : Option String :=
  if runas_user.isNone && runas_group.isNone then some sd_str else none

/-- C8: the runas_default observer re-resolves the target user to the
new policy default if and only if the command line pinned neither -u
nor -g; whenever either was given, the held identity is unchanged. -/
theorem C8_runas_default_observer (ru rg : Option String) (s : String) :
    (cb_runas_default ru rg s = some s ↔ (ru = none ∧ rg = none))
    ∧ ((ru ≠ none ∨ rg ≠ none) → cb_runas_default ru rg s = none) := by
  cases ru <;> cases rg <;> simp [cb_runas_default]

/-- Witness for C8 at a concrete input: with -u given, a runas_default
change during evaluation leaves the held identity unchanged. -/
theorem C8_witness : cb_runas_default (some "bob") none "operator" = none :=
  (C8_runas_default_observer (some "bob") none "operator").2
    (Or.inl (by simp))

/-- Tri-state match verdict (the ALLOW / DENY / UNSPEC values that the
match functions hand to cb_lookup). -/
inductive TriState
  | allow
  | deny
  | unspec
deriving DecidableEq

/-- One invocation of the cb_lookup callback (one visited rule group):
the user_match verdict of the enclosing userspec, the privilege block
(a Nat standing for the priv pointer), and the host/date/runas/cmnd
verdicts. -/
structure Visit where
  userMatch : TriState
  priv : Nat
  hostMatch : TriState
  dateMatch : TriState
  runasMatch : TriState
  cmndMatch : TriState
deriving DecidableEq

/-- One line of the per-group trace: cb_lookup's printf statements,
with the formatted privilege block standing as a header line. -/
inductive TraceLine
  | header (priv : Nat)
  | host (v : TriState)
  | date (v : TriState)
  | runas (v : TriState)
  | cmnd (v : TriState)
deriving DecidableEq

/-- Rendering of a verdict, following cb_lookup's ternary chains
(`allowed` / `denied` / `unmatched`). -/
def verdictStr : TriState → String
  | .allow => "allowed"
  | .deny => "denied"
  | .unspec => "unmatched"

/-- cb_lookup (testsudoers.c:627-668) for one visit: `prev` is the
static prev_priv variable on entry; returns the new prev_priv and the
lines printed.  On a user mismatch prev_priv is reset and nothing is
printed; a new header together with the host line is printed only when
the privilege block differs from prev_priv; the date line is printed
only under an allowed host and a non-UNSPEC date verdict; the runas
line only when the date verdict is not DENY; the cmnd line only when
additionally the runas verdict is ALLOW. -/
def cb_lookup_step (prev : Option Nat) (v : Visit) :
    Option Nat × List TraceLine :=
  if v.userMatch ≠ TriState.allow then (none, [])
  else
    let headerLines : List TraceLine :=
      if some v.priv ≠ prev then
        [TraceLine.header v.priv, TraceLine.host v.hostMatch]
      else []
    let innerLines : List TraceLine :=
      if v.hostMatch = TriState.allow then
        (if v.dateMatch ≠ TriState.unspec then [TraceLine.date v.dateMatch]
         else [])
        ++ (if v.dateMatch ≠ TriState.deny then
              [TraceLine.runas v.runasMatch]
              ++ (if v.runasMatch = TriState.allow then
                    [TraceLine.cmnd v.cmndMatch]
                  else [])
            else [])
      else []
    (some v.priv, headerLines ++ innerLines)

/-- The whole trace of a sequence of visits, threading prev_priv from
its initial NULL value. -/
def cb_lookup_run (visits : List Visit) : List TraceLine :=
  (visits.foldl
    (fun acc v =>
      let st := cb_lookup_step acc.1 v
      (st.1, acc.2 ++ st.2))
    ((none : Option Nat), ([] : List TraceLine))).2

/-- Counterexample to C9 as stated: a visited rule group with userMatch
Allow, hostMatch Allow (no outer dimension denies) and dateMatch
Unspecified, whose privilege block equals the previously visited one:
its trace is just the runas and cmnd lines — it contains no host slot
(the host line accompanies only a new block header) and no date slot
(an Unspecified date verdict is omitted, never rendered "unmatched"),
contradicting "the trace output contains host/date/runas/cmnd slots".  -/
theorem C9_counterexample :
    cb_lookup_step (some 1)
      ⟨TriState.allow, 1, TriState.allow, TriState.unspec,
        TriState.allow, TriState.allow⟩ =
      (some 1, [TraceLine.runas TriState.allow,
                TraceLine.cmnd TriState.allow]) := rfl

/-- C9 (amended): per visited rule group with userMatch Allow, the
block header (and with it the host slot) appears iff the group's
privilege block differs from the tracked previous one; the date slot
appears iff the host verdict is Allow and the date verdict is not
Unspecified; the runas slot iff the host verdict is Allow and the date
verdict is not Deny; the cmnd slot iff additionally the runas verdict
is Allow; after the visit the tracked block is the group's.  A visit
with userMatch not Allow prints nothing and resets the tracked block. -/
theorem C9_trace_structure (prev : Option Nat) (v : Visit) :
    (v.userMatch ≠ TriState.allow → cb_lookup_step prev v = (none, []))
    ∧ (v.userMatch = TriState.allow →
        (TraceLine.header v.priv ∈ (cb_lookup_step prev v).2 ↔
          some v.priv ≠ prev)
        ∧ (TraceLine.host v.hostMatch ∈ (cb_lookup_step prev v).2 ↔
            some v.priv ≠ prev)
        ∧ (TraceLine.date v.dateMatch ∈ (cb_lookup_step prev v).2 ↔
            (v.hostMatch = TriState.allow ∧ v.dateMatch ≠ TriState.unspec))
        ∧ (TraceLine.runas v.runasMatch ∈ (cb_lookup_step prev v).2 ↔
            (v.hostMatch = TriState.allow ∧ v.dateMatch ≠ TriState.deny))
        ∧ (TraceLine.cmnd v.cmndMatch ∈ (cb_lookup_step prev v).2 ↔
            (v.hostMatch = TriState.allow ∧ v.dateMatch ≠ TriState.deny
              ∧ v.runasMatch = TriState.allow))
        ∧ (cb_lookup_step prev v).1 = some v.priv) := by
  rcases v with ⟨um, pr, hm, dm, rm, cm⟩
  by_cases hp : (some pr = prev) <;>
    cases um <;> cases hm <;> cases dm <;> cases rm <;>
    simp_all [cb_lookup_step]

/-- Witness for C9 (amended) at a concrete input: a fresh privilege
block, everything allowed — header, host, date, runas and cmnd slots
all present, and the block becomes the tracked one. -/
theorem C9_witness :
    (TraceLine.header 3 ∈
      (cb_lookup_step none ⟨TriState.allow, 3, TriState.allow,
        TriState.allow, TriState.allow, TriState.allow⟩).2)
    ∧ (TraceLine.date TriState.allow ∈
      (cb_lookup_step none ⟨TriState.allow, 3, TriState.allow,
        TriState.allow, TriState.allow, TriState.allow⟩).2)
    ∧ (cb_lookup_step none ⟨TriState.allow, 3, TriState.allow,
        TriState.allow, TriState.allow, TriState.allow⟩).1 = some 3 :=
  ⟨((C9_trace_structure none ⟨TriState.allow, 3, TriState.allow,
      TriState.allow, TriState.allow, TriState.allow⟩).2 rfl).1.mpr
      (by simp),
   ((C9_trace_structure none ⟨TriState.allow, 3, TriState.allow,
      TriState.allow, TriState.allow, TriState.allow⟩).2 rfl).2.2.1.mpr
      ⟨rfl, by simp⟩,
   ((C9_trace_structure none ⟨TriState.allow, 3, TriState.allow,
      TriState.allow, TriState.allow, TriState.allow⟩).2 rfl).2.2.2.2.2⟩

/-- The run modes of testsudoers (MODE_RUN / MODE_LIST / MODE_VALIDATE
/ MODE_CHECK). -/
inductive Mode
  | run
  | list
  | validate
  | check
deriving DecidableEq

/-- Modelled from the spec: I_LISTPW, the sudo_defs_table index that -l
and -L store into pwflag (header outside src/); only its being nonzero
matters here. -/
def I_LISTPW : Nat := 1

/-- Modelled from the spec: I_VERIFYPW, the sudo_defs_table index that
-v stores into pwflag (header outside src/); only its being nonzero
matters here. -/
def I_VERIFYPW : Nat := 2

/-- Positional-argument handling of main() (testsudoers.c:242-260).
`dflag`: -d was given; `pwflag`: I_LISTPW/I_VERIFYPW from -l,-L,-v (0
otherwise); `mode0`: sudo_mode after flag processing; `orig0`:
orig_cmnd after flag processing ("list"/"validate", or none); `args`:
the positional arguments.  Returns none when usage() terminates the
process, otherwise the requesting-user name, the command, the run mode
and the remaining arguments. -/
def parse_positionals (dflag : Bool) (pwflag : Nat) (mode0 : Mode)
    (orig0 : Option String) (args : List String) :
    Option (String × Option String × Mode × List String) :=
  if args.length < 2 then
    let oc : Option String := if dflag then some "true" else orig0
    if !dflag && pwflag == 0 then none
    else some (args.headD "root", oc, mode0, [])
  else
    let mode := if args.length > 2 && mode0 == Mode.list then Mode.check
                else mode0
    match orig0 with
    | none => some (args.headD "", (args.drop 1).headD "", mode, args.drop 2)
    | some c => some (args.headD "", some c, mode, args.drop 1)

/-- C10: with fewer than two positional arguments the program
terminates with the usage message unless dump mode (-d) or a
list/validate mode (-l, -L, -v; check mode cannot yet be in effect at
this point) was selected; in those modes a missing positional user
argument defaults the requesting-user name to "root", and in dump mode
the command defaults to "true" — so a list or validate query runs with
zero positional arguments.  The hypotheses record that pwflag is
nonzero exactly for the list/validate modes and that check mode is not
yet selectable, as established by the option-processing loop. -/
theorem C10_usage_and_defaults (dflag : Bool) (pwflag : Nat) (mode0 : Mode)
    (orig0 : Option String) (args : List String)
    (hm : mode0 ≠ Mode.check)
    (hpw : (pwflag ≠ 0) ↔ (mode0 = Mode.list ∨ mode0 = Mode.validate)) :
    (args.length < 2 →
      (parse_positionals dflag pwflag mode0 orig0 args = none ↔
        (dflag = false ∧ ¬(mode0 = Mode.list ∨ mode0 = Mode.validate
          ∨ mode0 = Mode.check))))
    ∧ (args.length < 2 → dflag = true →
        parse_positionals dflag pwflag mode0 orig0 args =
          some (args.headD "root", some "true", mode0, []))
    ∧ (args = [] → dflag = false → pwflag ≠ 0 →
        parse_positionals dflag pwflag mode0 orig0 args =
          some ("root", orig0, mode0, [])) := by
  refine ⟨fun hlen => ?_, fun hlen hd => ?_, fun hnil hd hp => ?_⟩
  · by_cases hp0 : pwflag = 0 <;> cases dflag <;> cases mode0 <;>
      simp_all [parse_positionals]
  · subst hd
    simp [parse_positionals, hlen]
  · subst hnil hd
    simp [parse_positionals, Nat.pos_of_ne_zero hp,
      Nat.ne_of_gt (Nat.pos_of_ne_zero hp)]

/-- Witness for C10 at a concrete input: validate mode with zero
positional arguments runs (no usage), with the requesting user
defaulting to "root". -/
theorem C10_witness :
    parse_positionals false I_VERIFYPW Mode.validate (some "validate") [] =
      some ("root", some "validate", Mode.validate, []) :=
  (C10_usage_and_defaults false I_VERIFYPW Mode.validate (some "validate") []
    (by simp) (by simp [I_VERIFYPW])).2.2 rfl rfl (by simp [I_VERIFYPW])

end Testsudoers
